import Mathlib

/-
  Verification of the HPF pansharpening pipeline
  (src/python/functions.py and src/python/pansharpen.py).

  Cell values are modelled as `Option ℚ`: `none` stands for IEEE NaN,
  `some q` for a finite value.  All arithmetic propagates NaN, and the
  IEEE comparison `==` treats NaN as unequal to everything, exactly as
  the numpy operations used by the code do.
-/

namespace Pansharp

/-- A raster cell value: `none` models IEEE NaN, `some q` a finite value. -/
abbrev RVal : Type := Option ℚ

/-- NaN-propagating addition (numpy `+` on float arrays). -/
def radd : RVal → RVal → RVal
  | some a, some b => some (a + b)
  | _, _ => none

/-- NaN-propagating subtraction (numpy `-` on float arrays). -/
def rsub : RVal → RVal → RVal
  | some a, some b => some (a - b)
  | _, _ => none

/-- NaN-propagating multiplication (numpy `*` on float arrays). -/
def rmul : RVal → RVal → RVal
  | some a, some b => some (a * b)
  | _, _ => none

/-- IEEE equality test (numpy `==`): NaN compares unequal to everything,
including another NaN. -/
def rEq : RVal → RVal → Bool
  | some a, some b => a == b
  | _, _ => false

/-- Sum of a list of cell values; any NaN term makes the whole sum NaN. -/
def rsum (l : List RVal) : RVal := l.foldr radd (some 0)

/-- Sum of `f 0, …, f (n-1)` with NaN propagation. -/
def sumIdx (n : ℕ) (f : ℕ → RVal) : RVal := rsum ((List.range n).map f)

/-- An in-memory band stack: `nb` bands of `nr` rows by `nc` columns
(the shape of the numpy array produced by `read_raster`); `data` is
meaningful on `[0,nb) × [0,nr) × [0,nc)`. -/
structure Stack where
  nb : ℕ
  nr : ℕ
  nc : ℕ
  data : ℤ → ℤ → ℤ → RVal

/-- Array access under the boundary policy of
`ndimage.convolve(..., mode='constant', cval=np.nan)`: any index outside
the array (along any axis, the band axis included) reads the constant NaN. -/
def Stack.padded (s : Stack) (b r c : ℤ) : RVal :=
  if 0 ≤ b ∧ b < (s.nb : ℤ) ∧ 0 ≤ r ∧ r < (s.nr : ℤ) ∧ 0 ≤ c ∧ c < (s.nc : ℤ) then
    s.data b r c
  else none

/-- The fixed 5×5 weight matrix of `high_pass_filter`
(functions.py lines 86–92): every entry is −1/25 except the centre
entry (2,2) which is 24/25.  Meaningful on `[0,5) × [0,5)`. -/
def highPassMatrix (r c : ℤ) : ℚ :=
  (if r = 2 ∧ c = 2 then 24 else -1) / 25

/-- Sum of all 25 weights of the 5×5 matrix. -/
def kernelWeightSum : ℚ :=
  (((List.range 5).map fun r =>
    (((List.range 5).map fun c => highPassMatrix r c).sum)).sum)

/-- `scipy.ndimage.convolve` of the stack with the 3-D kernel built in
`high_pass_filter` (functions.py lines 97–104): the 5×5 matrix stacked
`s.nb` times along the band axis.  scipy computes, along every axis,
`out[i] = Σ_j W[j] · I[i + size/2 − j]` (integer division), reading the
constant `cval = NaN` outside the input; the kernel extends over the
band axis as well, so the band coordinate is offset by `s.nb / 2`. -/
def convolveHP (s : Stack) (b r c : ℤ) : RVal :=
  sumIdx s.nb fun jb =>
    sumIdx 5 fun jr =>
      sumIdx 5 fun jc =>
        rmul (some (highPassMatrix jr jc))
          (s.padded (b + ((s.nb / 2 : ℕ) : ℤ) - (jb : ℤ))
                    (r + 2 - (jr : ℤ)) (c + 2 - (jc : ℤ)))

/-- `high_pass_filter` (functions.py lines 78–106): one 3-D convolution
of the whole stack with the `(nb, 5, 5)` kernel, constant-NaN padding.
The output has the shape of the input. -/
def high_pass_filter (s : Stack) : Stack :=
  { nb := s.nb, nr := s.nr, nc := s.nc, data := fun b r c => convolveHP s b r c }

/-- The six geotransform parameters, in GDAL index order 0–5. -/
structure GeoTransform where
  originX : ℚ
  pixelWidth : ℚ
  rowRotation : ℚ
  originY : ℚ
  colRotation : ℚ
  pixelHeight : ℚ
deriving DecidableEq

/-- A raster file as the pipeline sees it: its band data plus the
projection string and geotransform returned by GDAL. -/
structure RasterFile where
  stack : Stack
  projection : Option String
  geoTrans : Option GeoTransform

/-- The nodata argument of `read_raster` and `pansharpening`:
`none` models Python `None` (no sentinel supplied); `some v` models a
float sentinel, where `v : RVal` may itself be NaN (`some none`). -/
abbrev Nodata := Option RVal

/-- The per-cell effect of `ds[ds == nodata] = np.nan`
(functions.py line 46): with `nodata = None` the elementwise comparison
is everywhere false and nothing changes; with a float sentinel, cells
comparing IEEE-equal to it become NaN (so a NaN sentinel never matches). -/
def substNodata (nodata : Nodata) (v : RVal) : RVal :=
  match nodata with
  | none => v
  | some s => if rEq v s then none else v

/-- `read_raster` (functions.py lines 15–52): reads every band, applies
the nodata substitution cellwise, and returns the stack together with
the projection and geotransform of the file. -/
def read_raster (f : RasterFile) (nodata : Nodata) :
    Stack × Option String × Option GeoTransform :=
  ({ nb := f.stack.nb, nr := f.stack.nr, nc := f.stack.nc,
     data := fun b r c => substNodata nodata (f.stack.data b r c) },
   f.projection, f.geoTrans)

/-- `get_bbox` (functions.py lines 54–76), modelled on the geotransform
and pixel dimensions of the raster at the given path
(`xSize` = RasterXSize = columns, `ySize` = RasterYSize = rows):
returns `(ulx, uly + ySize·resY, ulx + xSize·resX, uly, resX, resY)`. -/
def get_bbox (gt : GeoTransform) (xSize ySize : ℕ) : ℚ × ℚ × ℚ × ℚ × ℚ × ℚ :=
  let resX := gt.pixelWidth
  let resY := gt.pixelHeight
  let ulx := gt.originX
  let uly := gt.originY
  let lrx := ulx + (xSize : ℚ) * resX
  let lry := uly + (ySize : ℚ) * resY
  (ulx, lry, lrx, uly, resX, resY)

/-- The observable side effects of the writer part of `pansharpening`
(functions.py lines 156–178), in the order they are performed. -/
inductive Event where
  | setNoData (band : ℕ)
  | writeArray (band : ℕ)
  | setGeoTransform
  | setProjection
  | flushCache
deriving DecidableEq

/-- True exactly for pixel-write events. -/
def Event.isWrite : Event → Bool
  | .writeArray _ => true
  | _ => false

/-- True exactly for the per-band events (nodata tagging and pixel writes). -/
def Event.isBandEvent : Event → Bool
  | .writeArray _ => true
  | .setNoData _ => true
  | _ => false

/-- The tagging events for band `i`: `SetNoDataValue` is called iff
`nodata is not None` (functions.py lines 169–170). -/
def tagEvents (nodata : Nodata) (i : ℕ) : List Event :=
  match nodata with
  | some _ => [Event.setNoData i]
  | none => []

/-- The loop of functions.py lines 156–171: for `i = 0 … n−1`, tag band
`i` (when a sentinel was supplied) and then write its pixel array. -/
def bandTrace (nodata : Nodata) : ℕ → List Event
  | 0 => []
  | n + 1 => bandTrace nodata n ++ (tagEvents nodata n ++ [Event.writeArray n])

/-- The per-cell effect of `pansharpen[np.isnan(pansharpen)] = nodata`
(functions.py line 164): NaN cells receive the sentinel.  Assigning
Python `None` into a float array stores NaN, so with no sentinel a NaN
cell stays NaN; a NaN sentinel likewise stores NaN. -/
def replaceNaN (nodata : Nodata) (v : RVal) : RVal :=
  match v with
  | none =>
    match nodata with
    | none => none
    | some s => s
  | some x => some x

/-- The result of one run of `pansharpening`: output shape, the fused
value of line 162 (before NaN replacement), the value written to the
file (after line 164), and the trace of writer side effects. -/
structure PanshOut where
  nBands : ℕ
  rows : ℕ
  cols : ℕ
  fused : ℤ → ℤ → ℤ → RVal
  written : ℤ → ℤ → ℤ → RVal
  trace : List Event

/-- `pansharpening` (functions.py lines 108–178).  The PAN raster is
read with the caller's nodata sentinel; the MUL raster is read with no
sentinel (line 127 passes none).  Band 0 of the PAN stack and of its
high-pass-filtered counterpart are fused with every MUL band
(line 162), NaN cells are then replaced by the sentinel (line 164), and
the writer emits its side effects band by band, attaching geotransform
and projection after the loop and flushing last (lines 173–178). -/
def pansharpening (mulFile panFile : RasterFile) (nodata : Nodata) : PanshOut :=
  let panRead := read_raster panFile nodata
  let pan_arr := panRead.1
  let projection := panRead.2.1
  let geoTrans := panRead.2.2
  let pan_spatial := high_pass_filter pan_arr
  let mul_arr := (read_raster mulFile none).1
  let n_bands := mul_arr.nb
  let fused := fun (i r c : ℤ) =>
    radd (mul_arr.data i r c) (rsub (pan_arr.data 0 r c) (pan_spatial.data 0 r c))
  { nBands := n_bands
    rows := mul_arr.nr
    cols := mul_arr.nc
    fused := fused
    written := fun i r c => replaceNaN nodata (fused i r c)
    trace :=
      bandTrace nodata n_bands
        ++ (match geoTrans with | some _ => [Event.setGeoTransform] | none => [])
        ++ (match projection with | some _ => [Event.setProjection] | none => [])
        ++ [Event.flushCache] }

/-- Number of parameters of `functions.pansharpening`
(`mul_resize`, `pan`, `outPath`, `nodata`; functions.py line 108). -/
def pansharpeningParamCount : ℕ := 4

/-- Number of those parameters that carry a default value: none does. -/
def pansharpeningDefaultCount : ℕ := 0

/-- Number of positional arguments in the call
`functions.pansharpening(mul_img_resized, pan_img, out_img)`
at pansharpen.py line 63. -/
def mainScriptArgCount : ℕ := 3

/-- Python positional-argument binding: a call with `nArgs` positional
arguments to a function with `nParams` parameters of which the last
`nDefaults` have defaults succeeds iff every non-default parameter
receives an argument and no extra argument is passed; otherwise the
interpreter raises a TypeError. -/
def callBinds (nParams nDefaults nArgs : ℕ) : Bool :=
  nParams - nDefaults ≤ nArgs && nArgs ≤ nParams

/-- Per-band independent convolution as the spec describes the High-Pass
Filter: every cell of band `b` is the 5×5 weighted sum of the spatial
neighbourhood taken from band `b` only, with the boundary read as NaN.
Stated from the spec for comparison with `high_pass_filter`. -/
def bandIndependentHPF (s : Stack) : Stack :=
  { nb := s.nb, nr := s.nr, nc := s.nc,
    data := fun b r c =>
      sumIdx 5 fun jr =>
        sumIdx 5 fun jc =>
          rmul (some (highPassMatrix jr jc))
            (s.padded b (r + 2 - (jr : ℤ)) (c + 2 - (jc : ℤ))) }

/-- A single-band 5×5 stack in which every cell holds the value 1. -/
def constStack : Stack := { nb := 1, nr := 5, nc := 5, data := fun _ _ _ => some 1 }

/-- A three-band 5×5 stack: band 0 holds 25 at its centre cell and 0
elsewhere; bands 1 and 2 are identically 0. -/
def threeBandStack : Stack :=
  { nb := 3, nr := 5, nc := 5,
    data := fun b r c => if b = 0 ∧ r = 2 ∧ c = 2 then some 25 else some 0 }

/-- A 1-band 5×5 MUL raster whose centre cell holds 7 — the value used
below as the nodata sentinel — and 0 elsewhere. -/
def mulSentinelFile : RasterFile :=
  { stack := { nb := 1, nr := 5, nc := 5,
               data := fun _ r c => if r = 2 ∧ c = 2 then some 7 else some 0 },
    projection := some "EPSG:32642", geoTrans := some ⟨0, 1, 0, 10, 0, -1⟩ }

/-- A 1-band 5×5 PAN raster whose centre cell holds 1 and 0 elsewhere,
so its high-pass detail at the centre is 24/25 and the PAN detail term
there is 1 − 24/25 = 1/25. -/
def panDetailFile : RasterFile :=
  { stack := { nb := 1, nr := 5, nc := 5,
               data := fun _ r c => if r = 2 ∧ c = 2 then some 1 else some 0 },
    projection := some "EPSG:32642", geoTrans := some ⟨0, 1, 0, 10, 0, -1⟩ }

/-- Adding the neutral finite value 0 on the right changes nothing,
also on NaN. -/
theorem radd_some_zero (v : RVal) : radd v (some 0) = v := by
  cases v <;> simp [radd]

/-- With no sentinel, the NaN replacement of line 164 is the identity. -/
theorem replaceNaN_none (v : RVal) : replaceNaN none v = v := by
  cases v <;> rfl

/-- Sums of indexwise-equal families agree. -/
theorem sumIdx_congr (n : ℕ) (f g : ℕ → RVal) (h : ∀ j, j < n → f j = g j) :
    sumIdx n f = sumIdx n g := by
  unfold sumIdx
  congr 1
  exact List.map_congr_left fun a ha => h a (List.mem_range.mp ha)

/-- A list sum of finite values is finite, and is the rational sum. -/
theorem rsum_map_some (l : List ℕ) (g : ℕ → ℚ) :
    rsum (l.map fun j => (some (g j) : RVal)) = some ((l.map g).sum) := by
  induction l with
  | nil => rfl
  | cons x xs ih =>
    simp only [List.map_cons, List.sum_cons]
    unfold rsum at ih ⊢
    simp only [List.foldr_cons, ih, radd]

/-- An indexed sum of finite values is finite, and is the rational sum. -/
theorem sumIdx_some (n : ℕ) (g : ℕ → ℚ) :
    sumIdx n (fun j => some (g j)) = some (((List.range n).map g).sum) :=
  rsum_map_some (List.range n) g

/-- A one-element indexed sum is its only term. -/
theorem sumIdx_one (f : ℕ → RVal) : sumIdx 1 f = f 0 := by
  have h1 : List.range 1 = [0] := rfl
  simp [sumIdx, rsum, h1, radd_some_zero]

/-- The band loop emits, for each band in ascending order, its tag
events followed by its write event. -/
theorem bandTrace_eq_flatten (nodata : Nodata) (n : ℕ) :
    bandTrace nodata n =
      ((List.range n).map fun i => tagEvents nodata i ++ [Event.writeArray i]).flatten := by
  induction n with
  | zero => rfl
  | succ m ih =>
    rw [bandTrace, List.range_succ]
    simp [ih]

/-- The write events of the band loop are exactly the bands in
ascending order. -/
theorem bandTrace_filter_write (nodata : Nodata) (n : ℕ) :
    (bandTrace nodata n).filter Event.isWrite = (List.range n).map Event.writeArray := by
  induction n with
  | zero => rfl
  | succ m ih =>
    rw [bandTrace, List.range_succ]
    simp only [List.filter_append, ih, List.map_append, List.map_cons, List.map_nil]
    cases nodata <;> simp [tagEvents, Event.isWrite]

/-- Every event of the band loop is a per-band event. -/
theorem bandTrace_filter_band (nodata : Nodata) (n : ℕ) :
    (bandTrace nodata n).filter Event.isBandEvent = bandTrace nodata n := by
  induction n with
  | zero => rfl
  | succ m ih =>
    rw [bandTrace]
    simp only [List.filter_append, ih]
    cases nodata <;> simp [tagEvents, Event.isBandEvent]

/-- With no sentinel the band loop never tags a band. -/
theorem setNoData_not_mem_bandTrace_none (n i : ℕ) :
    Event.setNoData i ∉ bandTrace none n := by
  induction n with
  | zero => simp [bandTrace]
  | succ m ih => simp [bandTrace, tagEvents, ih]

/-- C1: for every MUL band i and pixel (row, col), the fused value of
`pansharpening` is `mul[i,row,col] + (pan[0,row,col] −
pan_highpass[0,row,col])`, where `mul` is the MUL stack as read (with no
sentinel forwarded), `pan` is the PAN stack read with the caller's
sentinel, and only band index 0 of the PAN stack and of its high-pass
counterpart enters; the written value is the fused value after NaN
replacement. -/
theorem c1_fusion_formula (mulFile panFile : RasterFile) (nodata : Nodata) (i r c : ℤ) :
    (pansharpening mulFile panFile nodata).fused i r c
      = radd ((read_raster mulFile none).1.data i r c)
          (rsub ((read_raster panFile nodata).1.data 0 r c)
            ((high_pass_filter (read_raster panFile nodata).1).data 0 r c))
    ∧ (pansharpening mulFile panFile nodata).written i r c
      = replaceNaN nodata ((pansharpening mulFile panFile nodata).fused i r c) :=
  ⟨rfl, rfl⟩

/-- C5: `get_bbox` returns
`(ulx, uly + H·resY, ulx + W·resX, uly, resX, resY)`; res-y keeps its
sign, and for a north-up raster (resX > 0, resY < 0, positive
dimensions) the tuple is ordered (min-x, min-y, max-x, max-y, …);
in particular geotransform (0,1,0,10,0,−1) with 10×10 pixels yields
(0, 0, 10, 10, 1, −1). -/
theorem c5_get_bbox_order (gt : GeoTransform) (xSize ySize : ℕ) :
    get_bbox gt xSize ySize
      = (gt.originX, gt.originY + (ySize : ℚ) * gt.pixelHeight,
         gt.originX + (xSize : ℚ) * gt.pixelWidth, gt.originY,
         gt.pixelWidth, gt.pixelHeight)
    ∧ (0 < gt.pixelWidth → gt.pixelHeight < 0 → 0 < xSize → 0 < ySize →
        (get_bbox gt xSize ySize).1 < (get_bbox gt xSize ySize).2.2.1
          ∧ (get_bbox gt xSize ySize).2.1 < (get_bbox gt xSize ySize).2.2.2.1)
    ∧ get_bbox ⟨0, 1, 0, 10, 0, -1⟩ 10 10 = (0, 0, 10, 10, 1, -1) := by
  refine ⟨rfl, ?_, by norm_num [get_bbox]⟩
  intro hw hh hx hy
  have hx0 : (0 : ℚ) < (xSize : ℚ) := by exact_mod_cast hx
  have hy0 : (0 : ℚ) < (ySize : ℚ) := by exact_mod_cast hy
  constructor
  · simp only [get_bbox]
    nlinarith
  · simp only [get_bbox]
    nlinarith

/-- Witness for C5 at geotransform (0,1,0,10,0,−1) and 10×10 pixels. -/
theorem c5_get_bbox_order_witness :
    (get_bbox ⟨0, 1, 0, 10, 0, -1⟩ 10 10).1 < (get_bbox ⟨0, 1, 0, 10, 0, -1⟩ 10 10).2.2.1
    ∧ (get_bbox ⟨0, 1, 0, 10, 0, -1⟩ 10 10).2.1
        < (get_bbox ⟨0, 1, 0, 10, 0, -1⟩ 10 10).2.2.2.1 :=
  (c5_get_bbox_order ⟨0, 1, 0, 10, 0, -1⟩ 10 10).2.1
    (by norm_num) (by norm_num) (by norm_num) (by norm_num)

/-- C10: `get_bbox` applies its formula unconditionally, with no sign
normalisation; with positive pixel-height and a positive row count the
value in the min-y slot strictly exceeds the value in the max-y slot. -/
theorem c10_south_up_inversion (gt : GeoTransform) (xSize ySize : ℕ) :
    get_bbox gt xSize ySize
      = (gt.originX, gt.originY + (ySize : ℚ) * gt.pixelHeight,
         gt.originX + (xSize : ℚ) * gt.pixelWidth, gt.originY,
         gt.pixelWidth, gt.pixelHeight)
    ∧ (0 < gt.pixelHeight → 0 < ySize →
        (get_bbox gt xSize ySize).2.2.2.1 < (get_bbox gt xSize ySize).2.1) := by
  refine ⟨rfl, ?_⟩
  intro hh hy
  have hy0 : (0 : ℚ) < (ySize : ℚ) := by exact_mod_cast hy
  simp only [get_bbox]
  nlinarith

/-- Witness for C10 at the south-up geotransform (0,1,0,10,0,1) with
10×10 pixels: the min-y slot holds 20, the max-y slot holds 10. -/
theorem c10_south_up_inversion_witness :
    (get_bbox ⟨0, 1, 0, 10, 0, 1⟩ 10 10).2.2.2.1 < (get_bbox ⟨0, 1, 0, 10, 0, 1⟩ 10 10).2.1 :=
  (c10_south_up_inversion ⟨0, 1, 0, 10, 0, 1⟩ 10 10).2 (by norm_num) (by norm_num)

/-- C6: with a finite sentinel, `read_raster` turns exactly the cells
equal to the sentinel into NaN and leaves every other cell unchanged;
with no sentinel nothing is substituted. -/
theorem c6_read_raster_substitution (f : RasterFile) (s : ℚ) (b r c : ℤ) :
    (read_raster f (some (some s))).1.data b r c
      = (if f.stack.data b r c = some s then none else f.stack.data b r c)
    ∧ (read_raster f none).1.data b r c = f.stack.data b r c := by
  constructor
  · show substNodata (some (some s)) (f.stack.data b r c) = _
    rcases hv : f.stack.data b r c with _ | x
    · simp [substNodata, rEq]
    · by_cases hx : x = s <;> simp [substNodata, rEq, hx]
  · rfl

/-- C2 counterexample: the 25 kernel weights do not sum to 1, and
convolving the all-ones single-band 5×5 stack gives 0, not 1, at the
centre cell. -/
theorem c2_counterexample :
    kernelWeightSum ≠ 1 ∧ (high_pass_filter constStack).data 0 2 2 ≠ some 1 := by
  have h5 : List.range 5 = [0, 1, 2, 3, 4] := rfl
  have h1 : List.range 1 = [0] := rfl
  constructor
  · simp only [kernelWeightSum, h5, List.map_cons, List.map_nil, List.sum_cons,
      List.sum_nil, highPassMatrix]
    norm_num
  · have hv : (high_pass_filter constStack).data 0 2 2 = some 0 := by
      simp only [high_pass_filter, convolveHP, sumIdx, rsum, constStack, h5, h1,
        List.map_cons, List.map_nil, List.foldr_cons, List.foldr_nil, Stack.padded,
        highPassMatrix]
      norm_num [radd, rmul]
    rw [hv]
    simp

/-- C2 amended: the kernel weights sum to exactly 0, and convolving a
constant-valued interior region of a single-band stack with the kernel
returns 0 (the high-pass filter annihilates flat fields rather than
preserving them). -/
theorem c2_kernel_flat_field (s : Stack) (r c : ℤ) (q : ℚ)
    (hnb : s.nb = 1)
    (h : ∀ dr dc : ℤ, -2 ≤ dr → dr ≤ 2 → -2 ≤ dc → dc ≤ 2 →
      s.padded 0 (r + dr) (c + dc) = some q) :
    kernelWeightSum = 0 ∧ (high_pass_filter s).data 0 r c = some 0 := by
  have h5 : List.range 5 = [0, 1, 2, 3, 4] := rfl
  constructor
  · simp only [kernelWeightSum, h5, List.map_cons, List.map_nil, List.sum_cons,
      List.sum_nil, highPassMatrix]
    norm_num
  · have hwin : ∀ jr : ℕ, jr < 5 → ∀ jc : ℕ, jc < 5 →
        s.padded 0 (r + 2 - (jr : ℤ)) (c + 2 - (jc : ℤ)) = some q := by
      intro jr hjr jc hjc
      rw [add_sub_assoc, add_sub_assoc]
      exact h (2 - (jr : ℤ)) (2 - (jc : ℤ)) (by omega) (by omega) (by omega) (by omega)
    show convolveHP s 0 r c = some 0
    simp only [convolveHP, hnb, sumIdx_one]
    have hb : (0 : ℤ) + (((1 : ℕ) / 2 : ℕ) : ℤ) - ((0 : ℕ) : ℤ) = 0 := by norm_num
    simp only [hb]
    have step : sumIdx 5 (fun jr =>
        sumIdx 5 fun jc =>
          rmul (some (highPassMatrix jr jc))
            (s.padded 0 (r + 2 - (jr : ℤ)) (c + 2 - (jc : ℤ))))
        = sumIdx 5 (fun jr =>
            some (((List.range 5).map fun jc => highPassMatrix jr jc * q).sum)) := by
      apply sumIdx_congr
      intro jr hjr
      refine (sumIdx_congr 5 _ (fun jc => some (highPassMatrix jr jc * q)) ?_).trans
        (sumIdx_some 5 _)
      intro jc hjc
      rw [hwin jr hjr jc hjc]
      rfl
    rw [step, sumIdx_some]
    simp only [h5, List.map_cons, List.map_nil, List.sum_cons, List.sum_nil, highPassMatrix]
    norm_num
    ring

/-- Witness for C2 amended: the all-ones single-band 5×5 stack at its
centre cell. -/
theorem c2_kernel_flat_field_witness :
    kernelWeightSum = 0 ∧ (high_pass_filter constStack).data 0 2 2 = some 0 :=
  c2_kernel_flat_field constStack 2 2 1 rfl (by
    intro dr dc h1 h2 h3 h4
    simp only [constStack, Stack.padded]
    split
    · rfl
    · exfalso
      rename_i hcond
      exact hcond ⟨by omega, by omega, by omega, by omega, by omega, by omega⟩)

/-- C3 counterexample: on a three-band stack the output of
`high_pass_filter` is not the independent per-band convolution.  At the
centre cell, band 0 of the 3-D convolution is NaN (the band-axis kernel
overhangs into the constant NaN padding) where the per-band convolution
is finite, and band 1 receives the detail of band 0 (24 instead of 0). -/
theorem c3_counterexample :
    (high_pass_filter threeBandStack).data 0 2 2
        ≠ (bandIndependentHPF threeBandStack).data 0 2 2
    ∧ (high_pass_filter threeBandStack).data 1 2 2
        ≠ (bandIndependentHPF threeBandStack).data 1 2 2 := by
  have h5 : List.range 5 = [0, 1, 2, 3, 4] := rfl
  have h3 : List.range 3 = [0, 1, 2] := rfl
  have ha0 : (high_pass_filter threeBandStack).data 0 2 2 = none := by
    simp only [high_pass_filter, convolveHP, sumIdx, rsum, threeBandStack, h5, h3,
      List.map_cons, List.map_nil, List.foldr_cons, List.foldr_nil, Stack.padded,
      highPassMatrix]
    norm_num [radd, rmul]
  have ha1 : (high_pass_filter threeBandStack).data 1 2 2 = some 24 := by
    simp only [high_pass_filter, convolveHP, sumIdx, rsum, threeBandStack, h5, h3,
      List.map_cons, List.map_nil, List.foldr_cons, List.foldr_nil, Stack.padded,
      highPassMatrix]
    norm_num [radd, rmul]
  have hb0 : (bandIndependentHPF threeBandStack).data 0 2 2 = some 24 := by
    simp only [bandIndependentHPF, sumIdx, rsum, threeBandStack, h5,
      List.map_cons, List.map_nil, List.foldr_cons, List.foldr_nil, Stack.padded,
      highPassMatrix]
    norm_num [radd, rmul]
  have hb1 : (bandIndependentHPF threeBandStack).data 1 2 2 = some 0 := by
    simp only [bandIndependentHPF, sumIdx, rsum, threeBandStack, h5,
      List.map_cons, List.map_nil, List.foldr_cons, List.foldr_nil, Stack.padded,
      highPassMatrix]
    norm_num [radd, rmul]
  rw [ha0, ha1, hb0, hb1]
  constructor <;> simp

/-- C3 amended: `high_pass_filter` always preserves the stack's shape
and its kernel is data-independent, but each band is convolved
independently only in the single-band case (the pipeline's PAN use):
for a 1-band stack every cell is the fixed-kernel weighted sum of the
5×5 spatial neighbourhood of that band. -/
theorem c3_single_band_independent (s : Stack) (r c : ℤ) (hnb : s.nb = 1) :
    (high_pass_filter s).nb = s.nb
    ∧ (high_pass_filter s).nr = s.nr
    ∧ (high_pass_filter s).nc = s.nc
    ∧ (high_pass_filter s).data 0 r c = (bandIndependentHPF s).data 0 r c := by
  refine ⟨rfl, rfl, rfl, ?_⟩
  show convolveHP s 0 r c = _
  simp only [convolveHP, hnb, sumIdx_one, bandIndependentHPF]
  norm_num

/-- Witness for C3 amended: the all-ones single-band 5×5 stack. -/
theorem c3_single_band_independent_witness :
    (high_pass_filter constStack).nb = constStack.nb
    ∧ (high_pass_filter constStack).nr = constStack.nr
    ∧ (high_pass_filter constStack).nc = constStack.nc
    ∧ (high_pass_filter constStack).data 0 2 2 = (bandIndependentHPF constStack).data 0 2 2 :=
  c3_single_band_independent constStack 2 2 rfl

/-- C4: evaluation at the failing input.  With sentinel 7, a MUL cell
holding 7 is not turned into NaN (the MUL raster is read with no
sentinel), so after fusion with a PAN detail of 1/25 it is 176/25:
not NaN before the sentinel restoration, and not the sentinel 7 in the
written output — the claimed nodata round-trip fails. -/
theorem c4_mul_nodata_not_threaded :
    (pansharpening mulSentinelFile panDetailFile (some (some 7))).fused 0 2 2 = some (176 / 25)
    ∧ (pansharpening mulSentinelFile panDetailFile (some (some 7))).fused 0 2 2 ≠ none
    ∧ (pansharpening mulSentinelFile panDetailFile (some (some 7))).written 0 2 2 ≠ some 7 := by
  have h5 : List.range 5 = [0, 1, 2, 3, 4] := rfl
  have h1 : List.range 1 = [0] := rfl
  have hf : (pansharpening mulSentinelFile panDetailFile (some (some 7))).fused 0 2 2
      = some (176 / 25) := by
    simp only [pansharpening, read_raster, substNodata, rEq, high_pass_filter, convolveHP,
      sumIdx, rsum, mulSentinelFile, panDetailFile, h5, h1,
      List.map_cons, List.map_nil, List.foldr_cons, List.foldr_nil, Stack.padded,
      highPassMatrix]
    norm_num [radd, rsub, rmul]
  have hw : (pansharpening mulSentinelFile panDetailFile (some (some 7))).written 0 2 2
      = some (176 / 25) := by
    show replaceNaN (some (some 7))
        ((pansharpening mulSentinelFile panDetailFile (some (some 7))).fused 0 2 2)
      = some (176 / 25)
    rw [hf]
    rfl
  refine ⟨hf, by rw [hf]; simp, by rw [hw]; norm_num⟩

/-- C7: the main script's call
`functions.pansharpening(mul_img_resized, pan_img, out_img)` does not
bind — `pansharpening` has four parameters, none with a default, so the
no-sentinel invocation raises a TypeError instead of completing.  The
function body itself, had it been entered with `nodata = None`, would
leave NaN cells as they are (the replacement is the identity) and would
tag no band with a nodata value. -/
theorem c7_no_sentinel_path :
    callBinds pansharpeningParamCount pansharpeningDefaultCount mainScriptArgCount = false
    ∧ (∀ (mulF panF : RasterFile) (i r c : ℤ),
        (pansharpening mulF panF none).written i r c
          = (pansharpening mulF panF none).fused i r c)
    ∧ (∀ (mulF panF : RasterFile) (i : ℕ),
        Event.setNoData i ∉ (pansharpening mulF panF none).trace) := by
  refine ⟨rfl, fun mulF panF i r c => replaceNaN_none _, ?_⟩
  intro mulF panF i
  cases hg : panF.geoTrans <;> cases hp : panF.projection <;>
    simp [pansharpening, read_raster, hg, hp, setNoData_not_mem_bandTrace_none]

/-- C8 counterexample: with the sentinel NaN the run is not aborted:
`read_raster` leaves every cell unchanged (the IEEE comparison with NaN
matches nothing, so the substitution silently does nothing) and the
pipeline proceeds to a normal fused output. -/
theorem c8_counterexample :
    (read_raster mulSentinelFile (some none)).1.data 0 2 2 = some 7
    ∧ (pansharpening mulSentinelFile panDetailFile (some none)).written 0 2 2
        = some (176 / 25) := by
  have h5 : List.range 5 = [0, 1, 2, 3, 4] := rfl
  have h1 : List.range 1 = [0] := rfl
  constructor
  · simp [read_raster, substNodata, rEq, mulSentinelFile]
  · simp only [pansharpening, read_raster, substNodata, rEq, high_pass_filter, convolveHP,
      sumIdx, rsum, mulSentinelFile, panDetailFile, h5, h1,
      List.map_cons, List.map_nil, List.foldr_cons, List.foldr_nil, Stack.padded,
      highPassMatrix, replaceNaN]
    norm_num [radd, rsub, rmul]

/-- C8 amended: a non-finite (NaN) sentinel is not detected or guarded
against: since NaN compares IEEE-unequal to every value, `read_raster`
with a NaN sentinel returns every cell unchanged and the run proceeds
normally with the substitution silently doing nothing. -/
theorem c8_nan_sentinel_no_guard (f : RasterFile) (b r c : ℤ) :
    (read_raster f (some none)).1.data b r c = f.stack.data b r c := by
  show substNodata (some none) (f.stack.data b r c) = f.stack.data b r c
  rcases f.stack.data b r c with _ | x <;> simp [substNodata, rEq]

/-- C9: the writer's side effects occur in the claimed order: the write
events are exactly bands 0,…,N−1 ascending; the per-band events are,
for each band in order, its nodata tag (when a sentinel was supplied)
immediately followed by its pixel write; the geotransform and
projection are attached only after the whole band loop; and the flush
is the final event. -/
theorem c9_write_order (mulF panF : RasterFile) (nodata : Nodata) :
    ((pansharpening mulF panF nodata).trace).filter Event.isWrite
      = (List.range (pansharpening mulF panF nodata).nBands).map Event.writeArray
    ∧ ((pansharpening mulF panF nodata).trace).filter Event.isBandEvent
      = ((List.range (pansharpening mulF panF nodata).nBands).map
          fun i => tagEvents nodata i ++ [Event.writeArray i]).flatten
    ∧ (pansharpening mulF panF nodata).trace
      = bandTrace nodata (pansharpening mulF panF nodata).nBands
        ++ ((match panF.geoTrans with
             | some _ => [Event.setGeoTransform]
             | none => [])
          ++ ((match panF.projection with
               | some _ => [Event.setProjection]
               | none => [])
            ++ [Event.flushCache]))
    ∧ ((pansharpening mulF panF nodata).trace).getLast? = some Event.flushCache := by
  have htr : (pansharpening mulF panF nodata).trace
      = bandTrace nodata mulF.stack.nb
        ++ ((match panF.geoTrans with
             | some _ => [Event.setGeoTransform]
             | none => [])
          ++ ((match panF.projection with
               | some _ => [Event.setProjection]
               | none => [])
            ++ [Event.flushCache])) := by
    simp [pansharpening, read_raster]
  have hnb : (pansharpening mulF panF nodata).nBands = mulF.stack.nb := rfl
  refine ⟨?_, ?_, htr, ?_⟩
  · rw [htr, hnb, List.filter_append, bandTrace_filter_write]
    cases hg : panF.geoTrans <;> cases hp : panF.projection <;>
      simp [Event.isWrite, List.filter]
  · rw [htr, hnb, List.filter_append, bandTrace_filter_band, bandTrace_eq_flatten]
    cases hg : panF.geoTrans <;> cases hp : panF.projection <;>
      simp [Event.isBandEvent, List.filter]
  · rw [htr]
    cases hg : panF.geoTrans <;> cases hp : panF.projection <;>
      simp [List.getLast?_append]

end Pansharp
